import Mathlib

/-!
Verification of the LED HTTP API module (src/Firmware/LEDApi.h).

The module routes HTTP requests, validates JSON bodies, forwards mutations
to the LED effect engine (the State Facade, `LEDController` in the source)
and decides when a mutation is written to durable storage (the Persistence
Facade, `NVSManager` in the source).  Both facades are external
collaborators, so they are embedded abstractly: a `Facade` record supplies
the query and setter operations over an opaque state type, and every call a
handler makes to either facade is recorded in an event trace.  Each handler
is a pure function from the parsed JSON body and the facade state to the
new facade state, the HTTP response, and the trace of facade calls, in the
order the source makes them.
-/

/-- Parsed JSON values as delivered by the transport adapter.  Objects keep
their fields in insertion order, matching the iteration and lookup order of
the parsed document in the source. -/
inductive JsonVal where
  | jNull : JsonVal
  | jBool (b : Bool) : JsonVal
  | jInt (n : Int) : JsonVal
  | jStr (s : String) : JsonVal
  | jObj (fields : List (String × JsonVal)) : JsonVal
deriving Repr

/-- First field of the object with the given key, as `operator[]` on a
parsed JSON object resolves a key. -/
def objGet : List (String × JsonVal) → String → Option JsonVal
  | [], _ => none
  | (k, v) :: rest, key => if k = key then some v else objGet rest key

/-- Field lookup where a missing key yields the null variant, as
`jsonObj[key]` does in the source. -/
def objGetD (fields : List (String × JsonVal)) (key : String) : JsonVal :=
  (objGet fields key).getD JsonVal.jNull

/-- `containsKey` of the parsed JSON object. -/
def containsKey (fields : List (String × JsonVal)) (key : String) : Bool :=
  (objGet fields key).isSome

/-- `json.as<JsonObject>()`: a non-object body yields the null object, on
which every key is absent and the size is zero. -/
def asObject : JsonVal → List (String × JsonVal)
  | JsonVal.jObj fields => fields
  | _ => []

/-- `as<uint8_t>()` on a JSON value: the library range-checks the numeric
conversion, so an integer inside 0..255 converts to itself and any integer
outside that range converts to 0 (no wrap-around); a boolean becomes 0 or
1; null and other non-numeric values convert to 0.  The parse of numeric
strings the library would attempt before converting is not modelled: no
handler here is exercised on a string-valued numeric field. -/
def asUint8 : JsonVal → Nat
  | JsonVal.jInt n => if 0 ≤ n ∧ n ≤ 255 then n.toNat else 0
  | JsonVal.jBool b => cond b 1 0
  | _ => 0

/-- `as<bool>()` on a JSON value: a boolean is itself, a number is true
exactly when nonzero, anything else converts to false. -/
def asBool : JsonVal → Bool
  | JsonVal.jBool b => b
  | JsonVal.jInt n => n != 0
  | _ => false

/-- The `jsonObj[key] | default` idiom with a `false` default: the stored
value when the field is present and is a boolean, and `false` otherwise. -/
def orFalse : Option JsonVal → Bool
  | some (JsonVal.jBool b) => b
  | _ => false

mutual
/-- `serializeJson`: compact JSON serialization of a value. -/
def serializeJson : JsonVal → String
  | JsonVal.jNull => "null"
  | JsonVal.jBool true => "true"
  | JsonVal.jBool false => "false"
  | JsonVal.jInt n => toString n
  | JsonVal.jStr s => "\"" ++ s ++ "\""
  | JsonVal.jObj fields => "\x7b" ++ serializeFields fields ++ "\x7d"

/-- Serialization of the fields of a JSON object, comma separated. -/
def serializeFields : List (String × JsonVal) → String
  | [] => ""
  | [(k, v)] => "\"" ++ k ++ "\":" ++ serializeJson v
  | (k, v) :: rest => "\"" ++ k ++ "\":" ++ serializeJson v ++ "," ++ serializeFields rest
end

/-- The State Facade (`LEDController`) and the observable effect of its
setters, over an opaque engine state `σ`.  `getParamsJson` returns the
filled document, whose `params` field holds the parameter set of the
currently active effect. -/
structure Facade (σ : Type) where
  getNumEffects : σ → Nat
  getEffectName : σ → String
  getParamsJson : σ → JsonVal
  setEffect : σ → Nat → σ
  setParam : σ → String → JsonVal → σ
  setPower : σ → Bool → σ
  setBrightness : σ → Nat → σ

/-- One call made by a handler to the State Facade (mutations) or to the
Persistence Facade (`NVSManager` saves), recorded in source order. -/
inductive Event where
  | setEffect (id : Nat) : Event
  | setParam (key : String) (value : JsonVal) : Event
  | setPower (powerOn : Bool) : Event
  | setBrightness (value : Nat) : Event
  | saveEffect (id : Nat) : Event
  | saveParams (blob : String) : Event
  | saveBrightness (value : Nat) : Event
deriving Repr

/-- True for the Persistence Facade calls, false for State Facade calls. -/
def Event.isSave : Event → Bool
  | Event.saveEffect _ => true
  | Event.saveParams _ => true
  | Event.saveBrightness _ => true
  | _ => false

/-- True exactly for `saveParams` calls. -/
def Event.isSaveParams : Event → Bool
  | Event.saveParams _ => true
  | _ => false

/-- An HTTP response: status code and the JSON document serialized into the
body. -/
structure HttpResponse where
  code : Nat
  body : JsonVal
deriving Repr

/-- Result of running one handler: the facade state afterwards, the
response sent, and the trace of facade calls. -/
structure HandlerResult (σ : Type) where
  state : σ
  response : HttpResponse
  calls : List Event

/-- `sendError`: a response whose body is the single-key error object. -/
def sendError (code : Nat) (message : String) : HttpResponse :=
  { code := code, body := JsonVal.jObj [("error", JsonVal.jStr message)] }

/-- `handleSetEffect`, the POST /api/led/effect handler. -/
def handleSetEffect {σ : Type} (F : Facade σ) (s : σ) (json : JsonVal) :
    HandlerResult σ :=
  let jsonObj := asObject json
  if !(containsKey jsonObj "id") then
    { state := s, response := sendError 400 "Missing \x27id\x27 field", calls := [] }
  else
    let effectId := asUint8 (objGetD jsonObj "id")
    if effectId ≥ F.getNumEffects s then
      { state := s, response := sendError 400 "Invalid effect ID", calls := [] }
    else
      let s1 := F.setEffect s effectId
      { state := s1
        response :=
          { code := 200
            body := JsonVal.jObj
              [("status", JsonVal.jStr "ok"),
               ("effect", JsonVal.jInt effectId),
               ("effectName", JsonVal.jStr (F.getEffectName s1))] }
        calls := [Event.setEffect effectId, Event.saveEffect effectId] }

/-- `handleSetParams`, the POST /api/led/params handler. -/
def handleSetParams {σ : Type} (F : Facade σ) (s : σ) (json : JsonVal) :
    HandlerResult σ :=
  let jsonObj := asObject json
  if jsonObj.length = 0 then
    { state := s, response := sendError 400 "Empty parameters", calls := [] }
  else
    let s1 := jsonObj.foldl (fun acc kv => F.setParam acc kv.1 kv.2) s
    let paramsJson := serializeJson (objGetD (asObject (F.getParamsJson s1)) "params")
    { state := s1
      response :=
        { code := 200
          body := JsonVal.jObj
            [("status", JsonVal.jStr "ok"),
             ("updated", JsonVal.jInt jsonObj.length)] }
      calls := jsonObj.map (fun kv => Event.setParam kv.1 kv.2)
                ++ [Event.saveParams paramsJson] }

/-- `handlePower`, the POST /api/led/power handler. -/
def handlePower {σ : Type} (F : Facade σ) (s : σ) (json : JsonVal) :
    HandlerResult σ :=
  let jsonObj := asObject json
  if !(containsKey jsonObj "on") then
    { state := s, response := sendError 400 "Missing \x27on\x27 field", calls := [] }
  else
    let powerOn := asBool (objGetD jsonObj "on")
    { state := F.setPower s powerOn
      response :=
        { code := 200
          body := JsonVal.jObj
            [("status", JsonVal.jStr "ok"), ("power", JsonVal.jBool powerOn)] }
      calls := [Event.setPower powerOn] }

/-- `handleBrightness`, the POST /api/led/brightness handler. -/
def handleBrightness {σ : Type} (F : Facade σ) (s : σ) (json : JsonVal) :
    HandlerResult σ :=
  let jsonObj := asObject json
  if !(containsKey jsonObj "value") then
    { state := s, response := sendError 400 "Missing \x27value\x27 field", calls := [] }
  else
    let brightness := asUint8 (objGetD jsonObj "value")
    let s1 := F.setBrightness s brightness
    let shouldSave := orFalse (objGet jsonObj "save")
    { state := s1
      response :=
        { code := 200
          body := JsonVal.jObj
            [("status", JsonVal.jStr "ok"),
             ("brightness", JsonVal.jInt brightness)] }
      calls :=
        if shouldSave then
          [Event.setBrightness brightness, Event.saveBrightness brightness]
        else
          [Event.setBrightness brightness] }

/-- HTTP methods used by the route table. -/
inductive HttpMethod where
  | GET : HttpMethod
  | POST : HttpMethod
  | OPTIONS : HttpMethod
deriving Repr, DecidableEq

/-- One registration made by `begin` on the transport: `server->on` for a
plain route, `server->addHandler` for a JSON-body handler. -/
inductive RegAction where
  | onRoute (path : String) (method : HttpMethod) : RegAction
  | addJsonHandler (path : String) : RegAction
deriving Repr, DecidableEq

/-- A log line emitted during initialization. -/
inductive LogMsg where
  | logError (msg : String) : LogMsg
  | logSection (msg : String) : LogMsg
  | logInfo (msg : String) : LogMsg
deriving Repr, DecidableEq

/-- The route registrations `begin` performs on a non-null server, in
source order. -/
def beginRegistrations : List RegAction :=
  [RegAction.onRoute "/api/led/*" HttpMethod.OPTIONS,
   RegAction.onRoute "/api/led/status" HttpMethod.GET,
   RegAction.onRoute "/api/led/effects" HttpMethod.GET,
   RegAction.onRoute "/api/led/params" HttpMethod.GET,
   RegAction.addJsonHandler "/api/led/effect",
   RegAction.addJsonHandler "/api/led/params",
   RegAction.addJsonHandler "/api/led/power",
   RegAction.addJsonHandler "/api/led/brightness"]

/-- `LEDApi.begin`: given whether the server pointer is null, the log lines
emitted and the registrations performed.  A null server logs an error and
registers nothing; otherwise all routes are registered unconditionally. -/
def LEDApi_begin (serverIsNull : Bool) : List LogMsg × List RegAction :=
  if serverIsNull then
    ([LogMsg.logError "LEDApi: Server is null!"], [])
  else
    ([LogMsg.logSection "Initializing LED API",
      LogMsg.logInfo "LED API endpoints registered",
      LogMsg.logInfo "  GET  /api/led/status",
      LogMsg.logInfo "  GET  /api/led/effects",
      LogMsg.logInfo "  GET  /api/led/params",
      LogMsg.logInfo "  POST /api/led/effect",
      LogMsg.logInfo "  POST /api/led/params",
      LogMsg.logInfo "  POST /api/led/power",
      LogMsg.logInfo "  POST /api/led/brightness"],
     beginRegistrations)

/-- A concrete LED engine used to exercise the handlers: two effects, a
small parameter set for the active effect. -/
structure DemoState where
  names : List String
  current : Nat
  params : List (String × JsonVal)
  power : Bool
  brightness : Nat
deriving Repr

/-- Insert or overwrite a parameter in the demo parameter set. -/
def demoSetParam : List (String × JsonVal) → String → JsonVal → List (String × JsonVal)
  | [], k, v => [(k, v)]
  | (k0, v0) :: rest, k, v =>
      if k0 = k then (k, v) :: rest else (k0, v0) :: demoSetParam rest k v

/-- A concrete instantiation of the State Facade over `DemoState`. -/
def demoFacade : Facade DemoState :=
  { getNumEffects := fun s => s.names.length
    getEffectName := fun s => s.names.getD s.current ""
    getParamsJson := fun s =>
      JsonVal.jObj [("effect", JsonVal.jInt s.current), ("params", JsonVal.jObj s.params)]
    setEffect := fun s id => { s with current := id }
    setParam := fun s k v => { s with params := demoSetParam s.params k v }
    setPower := fun s b => { s with power := b }
    setBrightness := fun s v => { s with brightness := v } }

/-- A concrete starting state for the demo engine. -/
def demoState : DemoState :=
  { names := ["Solid", "Rainbow"], current := 0
    params := [("speed", JsonVal.jInt 1), ("hue", JsonVal.jInt 90)]
    power := true, brightness := 128 }

/-- Concrete params request body used to exercise the handlers. -/
def demoParamsBody : JsonVal :=
  JsonVal.jObj [("speed", JsonVal.jInt 5), ("mirror", JsonVal.jBool true)]

/-- Concrete effect request body with an in-range id. -/
def demoEffectBody : JsonVal := JsonVal.jObj [("id", JsonVal.jInt 1)]

/-- Concrete effect request body with an out-of-range id. -/
def demoBadEffectBody : JsonVal := JsonVal.jObj [("id", JsonVal.jInt 5)]

/-- Concrete brightness request body without a save flag. -/
def demoBrightnessBody : JsonVal := JsonVal.jObj [("value", JsonVal.jInt 200)]

/-- Concrete brightness request body opting into persistence. -/
def demoBrightnessSaveBody : JsonVal :=
  JsonVal.jObj [("value", JsonVal.jInt 200), ("save", JsonVal.jBool true)]

/-- Concrete brightness request body with an out-of-range value. -/
def demoBigBrightnessBody : JsonVal := JsonVal.jObj [("value", JsonVal.jInt 1000)]

/-- Branch characterization: effect handler with missing id field. -/
theorem handleSetEffect_missing_id {σ : Type} (F : Facade σ) (s : σ) (json : JsonVal)
    (h : containsKey (asObject json) "id" = false) :
    handleSetEffect F s json =
      ⟨s, sendError 400 "Missing \x27id\x27 field", []⟩ := by
  simp [handleSetEffect, h]

/-- Branch characterization: effect handler with out-of-range coerced id. -/
theorem handleSetEffect_bad_id {σ : Type} (F : Facade σ) (s : σ) (json : JsonVal)
    (h1 : containsKey (asObject json) "id" = true)
    (h2 : F.getNumEffects s ≤ asUint8 (objGetD (asObject json) "id")) :
    handleSetEffect F s json = ⟨s, sendError 400 "Invalid effect ID", []⟩ := by
  simp [handleSetEffect, h1, h2]

/-- Branch characterization: effect handler with in-range coerced id. -/
theorem handleSetEffect_ok {σ : Type} (F : Facade σ) (s : σ) (json : JsonVal)
    (h1 : containsKey (asObject json) "id" = true)
    (h2 : asUint8 (objGetD (asObject json) "id") < F.getNumEffects s) :
    handleSetEffect F s json =
      ⟨F.setEffect s (asUint8 (objGetD (asObject json) "id")),
       ⟨200, JsonVal.jObj
          [("status", JsonVal.jStr "ok"),
           ("effect", JsonVal.jInt (asUint8 (objGetD (asObject json) "id"))),
           ("effectName", JsonVal.jStr
              (F.getEffectName (F.setEffect s (asUint8 (objGetD (asObject json) "id")))))]⟩,
       [Event.setEffect (asUint8 (objGetD (asObject json) "id")),
        Event.saveEffect (asUint8 (objGetD (asObject json) "id"))]⟩ := by
  simp [handleSetEffect, h1, Nat.not_le.mpr h2]

/-- Branch characterization: params handler with an empty (or non-object) body. -/
theorem handleSetParams_empty {σ : Type} (F : Facade σ) (s : σ) (json : JsonVal)
    (h : asObject json = []) :
    handleSetParams F s json = ⟨s, sendError 400 "Empty parameters", []⟩ := by
  simp [handleSetParams, h]

/-- Branch characterization: params handler with a non-empty body. -/
theorem handleSetParams_ok {σ : Type} (F : Facade σ) (s : σ) (json : JsonVal)
    (h : asObject json ≠ []) :
    handleSetParams F s json =
      ⟨(asObject json).foldl (fun acc kv => F.setParam acc kv.1 kv.2) s,
       ⟨200, JsonVal.jObj
          [("status", JsonVal.jStr "ok"),
           ("updated", JsonVal.jInt (asObject json).length)]⟩,
       (asObject json).map (fun kv => Event.setParam kv.1 kv.2)
         ++ [Event.saveParams (serializeJson (objGetD (asObject
               (F.getParamsJson ((asObject json).foldl
                 (fun acc kv => F.setParam acc kv.1 kv.2) s))) "params"))]⟩ := by
  have hlen : (asObject json).length ≠ 0 := fun hl => h (List.length_eq_zero.mp hl)
  simp [handleSetParams, hlen]

/-- Branch characterization: power handler with missing on field. -/
theorem handlePower_missing_on {σ : Type} (F : Facade σ) (s : σ) (json : JsonVal)
    (h : containsKey (asObject json) "on" = false) :
    handlePower F s json = ⟨s, sendError 400 "Missing \x27on\x27 field", []⟩ := by
  simp [handlePower, h]

/-- Branch characterization: power handler with the on field present. -/
theorem handlePower_ok {σ : Type} (F : Facade σ) (s : σ) (json : JsonVal)
    (h : containsKey (asObject json) "on" = true) :
    handlePower F s json =
      ⟨F.setPower s (asBool (objGetD (asObject json) "on")),
       ⟨200, JsonVal.jObj
          [("status", JsonVal.jStr "ok"),
           ("power", JsonVal.jBool (asBool (objGetD (asObject json) "on")))]⟩,
       [Event.setPower (asBool (objGetD (asObject json) "on"))]⟩ := by
  simp [handlePower, h]

/-- Branch characterization: brightness handler with missing value field. -/
theorem handleBrightness_missing_value {σ : Type} (F : Facade σ) (s : σ) (json : JsonVal)
    (h : containsKey (asObject json) "value" = false) :
    handleBrightness F s json =
      ⟨s, sendError 400 "Missing \x27value\x27 field", []⟩ := by
  simp [handleBrightness, h]

/-- Branch characterization: brightness handler with the value field present. -/
theorem handleBrightness_ok {σ : Type} (F : Facade σ) (s : σ) (json : JsonVal)
    (h : containsKey (asObject json) "value" = true) :
    handleBrightness F s json =
      ⟨F.setBrightness s (asUint8 (objGetD (asObject json) "value")),
       ⟨200, JsonVal.jObj
          [("status", JsonVal.jStr "ok"),
           ("brightness", JsonVal.jInt (asUint8 (objGetD (asObject json) "value")))]⟩,
       if orFalse (objGet (asObject json) "save") then
         [Event.setBrightness (asUint8 (objGetD (asObject json) "value")),
          Event.saveBrightness (asUint8 (objGetD (asObject json) "value"))]
       else
         [Event.setBrightness (asUint8 (objGetD (asObject json) "value"))]⟩ := by
  simp [handleBrightness, h]

/-- The save-flag idiom reads true exactly when the field is the boolean true. -/
theorem orFalse_eq_true_iff (o : Option JsonVal) :
    orFalse o = true ↔ o = some (JsonVal.jBool true) := by
  cases o with
  | none => simp [orFalse]
  | some v => cases v <;> simp [orFalse]

/-- Mapped setParam calls contain no saveParams event. -/
theorem countP_isSaveParams_map_setParam (l : List (String × JsonVal)) :
    (l.map (fun kv => Event.setParam kv.1 kv.2)).countP Event.isSaveParams = 0 := by
  induction l with
  | nil => rfl
  | cons a t ih => simp [List.countP_cons, Event.isSaveParams, ih]

/-- C1: for every POST /api/led/params request whose body is a non-empty
object, the handler forwards each key/value pair of the body exactly once
to the setParam operation of the State Facade (in body order), and
afterwards makes exactly one saveParams call to the Persistence Facade
whose payload is the serialized params object of getParamsJson re-read
from the State Facade after all pairs were applied — the full current
parameter set, not merely the submitted keys. -/
theorem C1_setParams_forwards_then_derived_save {σ : Type} (F : Facade σ) (s : σ)
    (json : JsonVal) (h : asObject json ≠ []) :
    (handleSetParams F s json).state
        = (asObject json).foldl (fun acc kv => F.setParam acc kv.1 kv.2) s
  ∧ (handleSetParams F s json).calls
        = (asObject json).map (fun kv => Event.setParam kv.1 kv.2)
          ++ [Event.saveParams (serializeJson (objGetD (asObject
                (F.getParamsJson ((asObject json).foldl
                  (fun acc kv => F.setParam acc kv.1 kv.2) s))) "params"))]
  ∧ (handleSetParams F s json).calls.countP Event.isSaveParams = 1 := by
  have hres := handleSetParams_ok F s json h
  rw [hres]
  refine ⟨rfl, rfl, ?_⟩
  simp [List.countP_append, countP_isSaveParams_map_setParam, List.countP_cons,
    Event.isSaveParams]

/-- Witness for C1 at a concrete body with two pairs over the demo engine. -/
theorem C1_witness :
    asObject demoParamsBody ≠ []
  ∧ ((handleSetParams demoFacade demoState demoParamsBody).state
        = (asObject demoParamsBody).foldl
            (fun acc kv => demoFacade.setParam acc kv.1 kv.2) demoState
     ∧ (handleSetParams demoFacade demoState demoParamsBody).calls
        = (asObject demoParamsBody).map (fun kv => Event.setParam kv.1 kv.2)
          ++ [Event.saveParams (serializeJson (objGetD (asObject
                (demoFacade.getParamsJson ((asObject demoParamsBody).foldl
                  (fun acc kv => demoFacade.setParam acc kv.1 kv.2) demoState))) "params"))]
     ∧ (handleSetParams demoFacade demoState demoParamsBody).calls.countP
          Event.isSaveParams = 1) :=
  ⟨by simp [demoParamsBody, asObject],
   C1_setParams_forwards_then_derived_save demoFacade demoState demoParamsBody
     (by simp [demoParamsBody, asObject])⟩

/-- C2: for every POST /api/led/effect request whose body contains field id
whose coerced value is at least the live effect count of the State Facade,
the response is HTTP 400 with an error body, no State Facade setter runs
and no Persistence Facade call occurs (the call trace is empty and the
facade state is unchanged). -/
theorem C2_setEffect_out_of_range_rejected {σ : Type} (F : Facade σ) (s : σ)
    (json : JsonVal)
    (h1 : containsKey (asObject json) "id" = true)
    (h2 : F.getNumEffects s ≤ asUint8 (objGetD (asObject json) "id")) :
    handleSetEffect F s json =
      ⟨s, ⟨400, JsonVal.jObj [("error", JsonVal.jStr "Invalid effect ID")]⟩, []⟩ :=
  handleSetEffect_bad_id F s json h1 h2

/-- Witness for C2: id 5 against the two-effect demo engine. -/
theorem C2_witness :
    (containsKey (asObject demoBadEffectBody) "id" = true
      ∧ demoFacade.getNumEffects demoState
          ≤ asUint8 (objGetD (asObject demoBadEffectBody) "id"))
  ∧ handleSetEffect demoFacade demoState demoBadEffectBody =
      ⟨demoState, ⟨400, JsonVal.jObj [("error", JsonVal.jStr "Invalid effect ID")]⟩, []⟩ :=
  ⟨⟨by decide, by decide⟩,
   C2_setEffect_out_of_range_rejected demoFacade demoState demoBadEffectBody
     (by decide) (by decide)⟩

/-- C3: for every POST /api/led/effect request with a present id field
whose coerced value is below the live effect count, the handler calls the
setEffect operation of the State Facade with that id, the Persistence
Facade receives exactly one saveEffect call with that id, and the success
body echoes status ok, the id, and the name the State Facade reports for
the now-active effect. -/
theorem C3_setEffect_in_range_applies_saves_echoes {σ : Type} (F : Facade σ) (s : σ)
    (json : JsonVal)
    (h1 : containsKey (asObject json) "id" = true)
    (h2 : asUint8 (objGetD (asObject json) "id") < F.getNumEffects s) :
    handleSetEffect F s json =
      ⟨F.setEffect s (asUint8 (objGetD (asObject json) "id")),
       ⟨200, JsonVal.jObj
          [("status", JsonVal.jStr "ok"),
           ("effect", JsonVal.jInt (asUint8 (objGetD (asObject json) "id"))),
           ("effectName", JsonVal.jStr
              (F.getEffectName (F.setEffect s (asUint8 (objGetD (asObject json) "id")))))]⟩,
       [Event.setEffect (asUint8 (objGetD (asObject json) "id")),
        Event.saveEffect (asUint8 (objGetD (asObject json) "id"))]⟩ :=
  handleSetEffect_ok F s json h1 h2

/-- Witness for C3: id 1 against the two-effect demo engine. -/
theorem C3_witness :
    (containsKey (asObject demoEffectBody) "id" = true
      ∧ asUint8 (objGetD (asObject demoEffectBody) "id")
          < demoFacade.getNumEffects demoState)
  ∧ handleSetEffect demoFacade demoState demoEffectBody =
      ⟨demoFacade.setEffect demoState (asUint8 (objGetD (asObject demoEffectBody) "id")),
       ⟨200, JsonVal.jObj
          [("status", JsonVal.jStr "ok"),
           ("effect", JsonVal.jInt (asUint8 (objGetD (asObject demoEffectBody) "id"))),
           ("effectName", JsonVal.jStr
              (demoFacade.getEffectName (demoFacade.setEffect demoState
                (asUint8 (objGetD (asObject demoEffectBody) "id")))))]⟩,
       [Event.setEffect (asUint8 (objGetD (asObject demoEffectBody) "id")),
        Event.saveEffect (asUint8 (objGetD (asObject demoEffectBody) "id"))]⟩ :=
  ⟨⟨by decide, by decide⟩,
   C3_setEffect_in_range_applies_saves_echoes demoFacade demoState demoEffectBody
     (by decide) (by decide)⟩

/-- C4: for every POST /api/led/brightness request with a present value
field, setBrightness runs with the coerced value, and exactly one
saveBrightness call with that same value occurs if and only if the body
holds a save field that is the boolean true; otherwise no Persistence
Facade call occurs at all. -/
theorem C4_brightness_persist_iff_save_true {σ : Type} (F : Facade σ) (s : σ)
    (json : JsonVal) (h : containsKey (asObject json) "value" = true) :
    (handleBrightness F s json).state
        = F.setBrightness s (asUint8 (objGetD (asObject json) "value"))
  ∧ (objGet (asObject json) "save" = some (JsonVal.jBool true) →
        (handleBrightness F s json).calls
          = [Event.setBrightness (asUint8 (objGetD (asObject json) "value")),
             Event.saveBrightness (asUint8 (objGetD (asObject json) "value"))])
  ∧ (objGet (asObject json) "save" ≠ some (JsonVal.jBool true) →
        (handleBrightness F s json).calls
          = [Event.setBrightness (asUint8 (objGetD (asObject json) "value"))]) := by
  have hres := handleBrightness_ok F s json h
  rw [hres]
  refine ⟨rfl, ?_, ?_⟩
  · intro hsave
    have ht : orFalse (objGet (asObject json) "save") = true :=
      (orFalse_eq_true_iff _).mpr hsave
    simp [ht]
  · intro hsave
    have hf : orFalse (objGet (asObject json) "save") = false := by
      cases hb : orFalse (objGet (asObject json) "save") with
      | false => rfl
      | true => exact absurd ((orFalse_eq_true_iff _).mp hb) hsave
    simp [hf]

/-- Witness for C4: value 200 with save true over the demo engine. -/
theorem C4_witness :
    containsKey (asObject demoBrightnessSaveBody) "value" = true
  ∧ ((handleBrightness demoFacade demoState demoBrightnessSaveBody).state
        = demoFacade.setBrightness demoState
            (asUint8 (objGetD (asObject demoBrightnessSaveBody) "value"))
     ∧ (objGet (asObject demoBrightnessSaveBody) "save" = some (JsonVal.jBool true) →
          (handleBrightness demoFacade demoState demoBrightnessSaveBody).calls
            = [Event.setBrightness (asUint8 (objGetD (asObject demoBrightnessSaveBody) "value")),
               Event.saveBrightness (asUint8 (objGetD (asObject demoBrightnessSaveBody) "value"))])
     ∧ (objGet (asObject demoBrightnessSaveBody) "save" ≠ some (JsonVal.jBool true) →
          (handleBrightness demoFacade demoState demoBrightnessSaveBody).calls
            = [Event.setBrightness (asUint8 (objGetD (asObject demoBrightnessSaveBody) "value"))])) :=
  ⟨by decide,
   C4_brightness_persist_iff_save_true demoFacade demoState demoBrightnessSaveBody
     (by decide)⟩

/-- C5: every validation failure on a mutating endpoint (missing id,
missing on, missing value, empty params object, out-of-range effect id)
short-circuits before any State Facade or Persistence Facade call: the
response is the single-key error object with HTTP code 400, the facade
state is unchanged and the call trace is empty. -/
theorem C5_validation_failures_short_circuit {σ : Type} (F : Facade σ) (s : σ)
    (json : JsonVal) :
    (containsKey (asObject json) "id" = false →
       handleSetEffect F s json =
         ⟨s, ⟨400, JsonVal.jObj [("error", JsonVal.jStr "Missing \x27id\x27 field")]⟩, []⟩)
  ∧ (containsKey (asObject json) "id" = true →
       F.getNumEffects s ≤ asUint8 (objGetD (asObject json) "id") →
       handleSetEffect F s json =
         ⟨s, ⟨400, JsonVal.jObj [("error", JsonVal.jStr "Invalid effect ID")]⟩, []⟩)
  ∧ (asObject json = [] →
       handleSetParams F s json =
         ⟨s, ⟨400, JsonVal.jObj [("error", JsonVal.jStr "Empty parameters")]⟩, []⟩)
  ∧ (containsKey (asObject json) "on" = false →
       handlePower F s json =
         ⟨s, ⟨400, JsonVal.jObj [("error", JsonVal.jStr "Missing \x27on\x27 field")]⟩, []⟩)
  ∧ (containsKey (asObject json) "value" = false →
       handleBrightness F s json =
         ⟨s, ⟨400, JsonVal.jObj [("error", JsonVal.jStr "Missing \x27value\x27 field")]⟩, []⟩) :=
  ⟨fun h => handleSetEffect_missing_id F s json h,
   fun h1 h2 => handleSetEffect_bad_id F s json h1 h2,
   fun h => handleSetParams_empty F s json h,
   fun h => handlePower_missing_on F s json h,
   fun h => handleBrightness_missing_value F s json h⟩

/-- Witness for C5: an empty body fails every field check, and an
out-of-range id fails the range check, each with an empty call trace. -/
theorem C5_witness :
    (containsKey (asObject (JsonVal.jObj [])) "id" = false
      ∧ asObject (JsonVal.jObj []) = ([] : List (String × JsonVal))
      ∧ containsKey (asObject (JsonVal.jObj [])) "on" = false
      ∧ containsKey (asObject (JsonVal.jObj [])) "value" = false
      ∧ containsKey (asObject demoBadEffectBody) "id" = true
      ∧ demoFacade.getNumEffects demoState
          ≤ asUint8 (objGetD (asObject demoBadEffectBody) "id"))
  ∧ handleSetEffect demoFacade demoState (JsonVal.jObj []) =
      ⟨demoState, ⟨400, JsonVal.jObj [("error", JsonVal.jStr "Missing \x27id\x27 field")]⟩, []⟩
  ∧ handleSetParams demoFacade demoState (JsonVal.jObj []) =
      ⟨demoState, ⟨400, JsonVal.jObj [("error", JsonVal.jStr "Empty parameters")]⟩, []⟩
  ∧ handlePower demoFacade demoState (JsonVal.jObj []) =
      ⟨demoState, ⟨400, JsonVal.jObj [("error", JsonVal.jStr "Missing \x27on\x27 field")]⟩, []⟩
  ∧ handleBrightness demoFacade demoState (JsonVal.jObj []) =
      ⟨demoState, ⟨400, JsonVal.jObj [("error", JsonVal.jStr "Missing \x27value\x27 field")]⟩, []⟩
  ∧ handleSetEffect demoFacade demoState demoBadEffectBody =
      ⟨demoState, ⟨400, JsonVal.jObj [("error", JsonVal.jStr "Invalid effect ID")]⟩, []⟩ :=
  ⟨⟨rfl, rfl, rfl, rfl, by decide, by decide⟩,
   (C5_validation_failures_short_circuit demoFacade demoState (JsonVal.jObj [])).1 rfl,
   (C5_validation_failures_short_circuit demoFacade demoState (JsonVal.jObj [])).2.2.1 rfl,
   (C5_validation_failures_short_circuit demoFacade demoState (JsonVal.jObj [])).2.2.2.1 rfl,
   (C5_validation_failures_short_circuit demoFacade demoState (JsonVal.jObj [])).2.2.2.2 rfl,
   (C5_validation_failures_short_circuit demoFacade demoState demoBadEffectBody).2.1
     (by decide) (by decide)⟩

/-- C6: for every POST /api/led/brightness request whose value field holds
any integer, the request is not rejected: the response code is 200, the
applied and echoed brightness is the 8-bit coercion of the value, and that
coerced brightness always lies within 0 to 255. -/
theorem C6_brightness_out_of_range_coerced_not_rejected {σ : Type} (F : Facade σ)
    (s : σ) (json : JsonVal) (n : Int)
    (h : objGet (asObject json) "value" = some (JsonVal.jInt n)) :
    (handleBrightness F s json).response.code = 200
  ∧ (handleBrightness F s json).state = F.setBrightness s (asUint8 (JsonVal.jInt n))
  ∧ (handleBrightness F s json).response.body
      = JsonVal.jObj [("status", JsonVal.jStr "ok"),
                      ("brightness", JsonVal.jInt (asUint8 (JsonVal.jInt n)))]
  ∧ asUint8 (JsonVal.jInt n) ≤ 255 := by
  have hck : containsKey (asObject json) "value" = true := by
    simp [containsKey, h]
  have hD : objGetD (asObject json) "value" = JsonVal.jInt n := by
    simp [objGetD, h]
  have hres := handleBrightness_ok F s json hck
  rw [hD] at hres
  rw [hres]
  refine ⟨rfl, rfl, rfl, ?_⟩
  simp only [asUint8]
  split <;> omega

/-- Witness for C6: the out-of-range value 1000 is accepted, converts to 0
and is applied and echoed as 0. -/
theorem C6_witness :
    objGet (asObject demoBigBrightnessBody) "value" = some (JsonVal.jInt 1000)
  ∧ ((handleBrightness demoFacade demoState demoBigBrightnessBody).response.code = 200
     ∧ (handleBrightness demoFacade demoState demoBigBrightnessBody).state
         = demoFacade.setBrightness demoState (asUint8 (JsonVal.jInt 1000))
     ∧ (handleBrightness demoFacade demoState demoBigBrightnessBody).response.body
         = JsonVal.jObj [("status", JsonVal.jStr "ok"),
                         ("brightness", JsonVal.jInt (asUint8 (JsonVal.jInt 1000)))]
     ∧ asUint8 (JsonVal.jInt 1000) ≤ 255) :=
  ⟨rfl,
   C6_brightness_out_of_range_coerced_not_rejected demoFacade demoState
     demoBigBrightnessBody 1000 rfl⟩

/-- C7: no POST /api/led/power request, whatever its body, ever triggers a
Persistence Facade call; a request with the on field present calls exactly
setPower with the coerced boolean, any other body calls nothing. -/
theorem C7_power_never_persists {σ : Type} (F : Facade σ) (s : σ) (json : JsonVal) :
    (handlePower F s json).calls.filter Event.isSave = []
  ∧ (handlePower F s json).calls
      = (if containsKey (asObject json) "on" = true
         then [Event.setPower (asBool (objGetD (asObject json) "on"))]
         else []) := by
  cases hc : containsKey (asObject json) "on" with
  | false =>
      rw [handlePower_missing_on F s json hc]
      simp
  | true =>
      rw [handlePower_ok F s json hc]
      simp [Event.isSave]

/-- C8: begin with a null transport handle logs an error and returns
without registering any route or handler; with a non-null handle nothing
else is checked: every route is registered unconditionally. -/
theorem C8_begin_null_guard :
    LEDApi_begin true = ([LogMsg.logError "LEDApi: Server is null!"], [])
  ∧ (LEDApi_begin false).2 = beginRegistrations
  ∧ beginRegistrations ≠ [] :=
  ⟨rfl, rfl, by decide⟩

/-- C9 counterexample: the claimed reduction modulo 256 is false of the
program.  Against the two-effect demo engine a body id of 300 would read
as 300 mod 256 = 44 and be rejected (44 is at least the effect count 2),
but the range-checked conversion yields 0 for the out-of-range value, so
the request is accepted with HTTP 200 and selects effect 0. -/
theorem C9_counterexample :
    ((300 : Int) % 256).toNat = 44
  ∧ demoFacade.getNumEffects demoState ≤ ((300 : Int) % 256).toNat
  ∧ asUint8 (JsonVal.jInt 300) ≠ ((300 : Int) % 256).toNat
  ∧ handleSetEffect demoFacade demoState (JsonVal.jObj [("id", JsonVal.jInt 300)]) =
      ⟨demoFacade.setEffect demoState 0,
       ⟨200, JsonVal.jObj
          [("status", JsonVal.jStr "ok"), ("effect", JsonVal.jInt 0),
           ("effectName", JsonVal.jStr
              (demoFacade.getEffectName (demoFacade.setEffect demoState 0)))]⟩,
       [Event.setEffect 0, Event.saveEffect 0]⟩ :=
  ⟨by decide, by decide, by decide, rfl⟩

/-- C9 (amended): the effect range check runs on the id after the 8-bit
range-checked conversion, so a value inside 0..255 is compared as itself
and any out-of-range value is compared as 0; in particular with at least
one effect an id of 256 is accepted and selects effect 0. -/
theorem C9_effect_range_check_after_coercion {σ : Type} (F : Facade σ) (s : σ)
    (h : 1 ≤ F.getNumEffects s) :
    (∀ (j : JsonVal) (n : Int), objGet (asObject j) "id" = some (JsonVal.jInt n) →
        0 ≤ n → n ≤ 255 →
        asUint8 (objGetD (asObject j) "id") = n.toNat)
  ∧ (∀ (j : JsonVal) (n : Int), objGet (asObject j) "id" = some (JsonVal.jInt n) →
        (n < 0 ∨ 255 < n) →
        asUint8 (objGetD (asObject j) "id") = 0)
  ∧ handleSetEffect F s (JsonVal.jObj [("id", JsonVal.jInt 256)]) =
      ⟨F.setEffect s 0,
       ⟨200, JsonVal.jObj
          [("status", JsonVal.jStr "ok"), ("effect", JsonVal.jInt 0),
           ("effectName", JsonVal.jStr (F.getEffectName (F.setEffect s 0)))]⟩,
       [Event.setEffect 0, Event.saveEffect 0]⟩ := by
  refine ⟨?_, ?_, ?_⟩
  · intro j n hj h1 h2
    simp [objGetD, hj, asUint8, h1, h2]
  · intro j n hj hout
    have hno : ¬(0 ≤ n ∧ n ≤ 255) := by rcases hout with hl | hl <;> omega
    simp [objGetD, hj, asUint8, hno]
  · have h1 : containsKey (asObject (JsonVal.jObj [("id", JsonVal.jInt 256)])) "id"
        = true := rfl
    have h0 : asUint8 (objGetD (asObject (JsonVal.jObj [("id", JsonVal.jInt 256)])) "id")
        = 0 := by decide
    have h2 : asUint8 (objGetD (asObject (JsonVal.jObj [("id", JsonVal.jInt 256)])) "id")
        < F.getNumEffects s := by
      rw [h0]; omega
    have hres := handleSetEffect_ok F s (JsonVal.jObj [("id", JsonVal.jInt 256)]) h1 h2
    rw [h0] at hres
    exact hres

/-- Witness for C9 (amended): id 300 is out of range and checks as 0, and
id 256 selects effect 0 of the two-effect demo engine. -/
theorem C9_witness :
    (1 ≤ demoFacade.getNumEffects demoState
      ∧ ((300 : Int) < 0 ∨ (255 : Int) < 300))
  ∧ asUint8 (objGetD (asObject (JsonVal.jObj [("id", JsonVal.jInt 300)])) "id") = 0
  ∧ handleSetEffect demoFacade demoState (JsonVal.jObj [("id", JsonVal.jInt 256)]) =
      ⟨demoFacade.setEffect demoState 0,
       ⟨200, JsonVal.jObj
          [("status", JsonVal.jStr "ok"), ("effect", JsonVal.jInt 0),
           ("effectName", JsonVal.jStr
              (demoFacade.getEffectName (demoFacade.setEffect demoState 0)))]⟩,
       [Event.setEffect 0, Event.saveEffect 0]⟩ :=
  ⟨⟨by decide, Or.inr (by decide)⟩,
   (C9_effect_range_check_after_coercion demoFacade demoState (by decide)).2.1
     (JsonVal.jObj [("id", JsonVal.jInt 300)]) 300 rfl (Or.inr (by decide)),
   (C9_effect_range_check_after_coercion demoFacade demoState (by decide)).2.2⟩

/-- C10: the save flag of the brightness handler defaults to false: a save
field that is the boolean true triggers the saveBrightness call, while an
absent save field, a non-boolean save field, or the boolean false all leave
the call trace at the single setBrightness call. -/
theorem C10_save_flag_defaults_false {σ : Type} (F : Facade σ) (s : σ)
    (json : JsonVal) (h : containsKey (asObject json) "value" = true) :
    (objGet (asObject json) "save" = some (JsonVal.jBool true) →
        (handleBrightness F s json).calls
          = [Event.setBrightness (asUint8 (objGetD (asObject json) "value")),
             Event.saveBrightness (asUint8 (objGetD (asObject json) "value"))])
  ∧ ((∀ b : Bool, objGet (asObject json) "save" ≠ some (JsonVal.jBool b)) →
        (handleBrightness F s json).calls
          = [Event.setBrightness (asUint8 (objGetD (asObject json) "value"))])
  ∧ (objGet (asObject json) "save" = some (JsonVal.jBool false) →
        (handleBrightness F s json).calls
          = [Event.setBrightness (asUint8 (objGetD (asObject json) "value"))]) := by
  have hres := handleBrightness_ok F s json h
  rw [hres]
  refine ⟨?_, ?_, ?_⟩
  · intro hsave
    simp [(orFalse_eq_true_iff _).mpr hsave]
  · intro hb
    have hf : orFalse (objGet (asObject json) "save") = false := by
      rcases hx : objGet (asObject json) "save" with _ | v
      · rfl
      · rcases v with _ | b | n | str | fs
        · rfl
        · exact absurd hx (hb b)
        · rfl
        · rfl
        · rfl
    simp [hf]
  · intro hsave
    have hf : orFalse (objGet (asObject json) "save") = false := by
      rw [hsave]; rfl
    simp [hf]

/-- Witness for C10: value 200 with the save field absent issues only the
setBrightness call. -/
theorem C10_witness :
    containsKey (asObject demoBrightnessBody) "value" = true
  ∧ (∀ b : Bool, objGet (asObject demoBrightnessBody) "save" ≠ some (JsonVal.jBool b))
  ∧ (handleBrightness demoFacade demoState demoBrightnessBody).calls
      = [Event.setBrightness (asUint8 (objGetD (asObject demoBrightnessBody) "value"))] :=
  ⟨by decide,
   fun b hcon => Option.noConfusion hcon,
   (C10_save_flag_defaults_false demoFacade demoState demoBrightnessBody (by decide)).2.1
     (fun b hcon => Option.noConfusion hcon)⟩
